import Mathlib

/-!
Verification model of the ioBroker Loxone adapter (src/main.ts).

The development shallowly embeds the state-synchronisation and
command-acknowledgement engine of the adapter class:
the per-item ack tracker (onStateChange, handleStateChange,
handleDelayedStateChange, checkStateForAck, setStateAck and the
ack-timeout callback), the inbound event queue (handleEventQueue),
the connection supervisor (connect, reconnect,
socketOnConnectionClosed) and the rate-limited info counters
(incInfoState, setInfoStateIfChanged, flushInfoStates).

JavaScript values of type ioBroker.StateValue are modelled by the
inductive SV below; the JavaScript null is an explicit constructor,
because the source uses null as the empty sentinel of the queued-value
slot.  Records keyed by strings are modelled as association lists.
Timers are modelled by storing the absolute expiry instant computed
from the state clock when the source calls setTimeout; a separate
function models the timer callback, which in the runtime only runs
while the timeout is still armed.  Listener invocations, log warnings
and errors, counter increments and acknowledged writes are recorded in
an event log (newest first).  General recursion through
setStateAck -> checkStateForAck -> handleDelayedStateChange ->
handleStateChange is embedded with a fuel parameter; in the source the
call depth of this cycle is structurally bounded, and every concrete
run below uses more fuel than the deepest chain needs.
-/

namespace Lox

/-- JavaScript state values (ioBroker.StateValue plus the null value). -/
inductive SV where
  | null
  | num (n : Int)
  | str (s : String)
  | bool (b : Bool)
deriving DecidableEq

/-- Association-list lookup, first match wins (JavaScript object indexing). -/
def lookupA {α : Type} : List (String × α) → String → Option α
  | [], _ => none
  | p :: tl, k => if p.1 = k then some p.2 else lookupA tl k

/-- Update every binding of a key in place (JavaScript property mutation). -/
def updA {α : Type} : List (String × α) → String → (α → α) → List (String × α)
  | [], _, _ => []
  | p :: tl, k, f => (if p.1 = k then (p.1, f p.2) else p) :: updA tl k f

/-- JavaScript object assignment: overwrite the key if present, else append. -/
def setA {α : Type} (l : List (String × α)) (k : String) (v : α) : List (String × α) :=
  match lookupA l k with
  | some _ => updA l k (fun _ => v)
  | none => l ++ [(k, v)]

def charsStartWith : List Char → List Char → Bool
  | _, [] => true
  | [], _ :: _ => false
  | c :: cs, p :: ps => (c == p) && charsStartWith cs ps

def charsContain : List Char → List Char → Bool
  | [], pat => pat.isEmpty
  | c :: cs, pat => charsStartWith (c :: cs) pat || charsContain cs pat

/-- String containment test (the includes method used on state ids). -/
def strContains (s pat : String) : Bool := charsContain s.data pat.data

/-- The adapter namespace prepended to short state ids (this.namespace). -/
def adapterNamespace : String := "loxone.0"

def dotStr : String := "."

/-- Key formed by this.namespace + a dot + the id, as in the source. -/
def nsKey (id : String) : String := adapterNamespace ++ dotStr ++ id

def emptyId : String := ""

/-- Substring whose presence makes onStateChange ignore the change. -/
def infoMarker : String := ".info."

def ctrAckTimeouts : String := "info.ackTimeouts"

def ctrDelayed : String := "info.stateChangesDelayed"

def ctrDiscarded : String := "info.stateChangesDiscarded"

/-- Default ack timeout (the module constant ackTimeoutMs = 500). -/
def defaultAckTimeoutMs : Nat := 500

/-- Period between connection attempts (reconnectTimeoutMs = 5000). -/
def reconnectTimeoutMs : Nat := 5000

/-- The listener options record (StateChangeListenerOpts).  Every field is
optional in the source; an absent field behaves as the default given here,
and minInt, maxInt and ackTimeoutMs keep an explicit option because the
source tests them against undefined or for truthiness. -/
structure StateChangeListenerOpts where
  notIfEqual : Bool := false
  convertToInt : Bool := false
  minInt : Option Int := none
  maxInt : Option Int := none
  ackTimeoutMs : Option Nat := none
  selfAck : Bool := false
deriving DecidableEq

/-- One registered state-change listener (StateChangeListenEntry).  The
listener function itself is not stored: its invocation is recorded in the
observable event log.  queuedVal uses SV.null as the empty sentinel exactly
as the source does, and ackTimer stores the absolute expiry instant of the
armed timeout (none when no timeout is armed). -/
structure StateChangeListenEntry where
  opts : StateChangeListenerOpts := {}
  queuedVal : SV := SV.null
  ackTimer : Option Nat := none
deriving DecidableEq

/-- Observable events of the ack subsystem: log warnings and errors that
carry decision-relevant data, counter increments, listener invocations and
acknowledged writes.  The log is kept newest first. -/
inductive Ev where
  | errorUnsupported (id : String)
  | warnDisconnected (id : String)
  | warnDelayed (id : String) (v : SV)
  | warnSuperseded (id : String) (discarded : SV)
  | warnAckTimeout (id : String)
  | inc (counter : String)
  | listenerCalled (id : String) (old : Option SV) (new : SV)
  | ackSet (id : String) (v : SV)
deriving DecidableEq

/-- The slice of the adapter state the ack subsystem reads and writes. -/
structure AckState where
  now : Nat
  lxConnected : Bool
  currentStateValues : List (String × SV)
  listeners : List (String × StateChangeListenEntry)
  reportedUnsupported : List String
  log : List Ev
deriving DecidableEq

/-- The state received by onStateChange (only val and ack matter here). -/
structure IoState where
  val : SV
  ack : Bool
deriving DecidableEq

def svFalsy : SV → Bool
  | SV.null => true
  | SV.num n => n == 0
  | SV.str s => s == emptyId
  | SV.bool b => !b

/-- Approximation of the JavaScript parseInt on value.toString(); numeric
strings use the Lean integer parser and a boolean maps to 0 (parseInt of
the words true or false is NaN, which no listed claim exercises). -/
def parseIntOfSV : SV → Int
  | SV.num n => n
  | SV.str s => (s.toInt?).getD 0
  | SV.bool _ => 0
  | SV.null => 0

/-- convertStateToInt from the source: falsy values become 0, everything
else is parsed as an integer. -/
def convertStateToInt (v : SV) : Int :=
  if svFalsy v then 0 else parseIntOfSV v

/-- The integer conversion and clamping prologue of handleStateChange. -/
def applyIntConversion (o : StateChangeListenerOpts) (val : SV) : SV :=
  if o.convertToInt then
    let v := convertStateToInt val
    let v := match o.minInt with
      | some m => if v < m then m else v
      | none => v
    let v := match o.maxInt with
      | some m => if m < v then m else v
      | none => v
    SV.num v
  else val

/-- The armed timeout duration: the source uses the override when it is
truthy (a 0 override falls back to the default, as the conditional
operator on a number treats 0 as false). -/
def ackDelayMs (o : StateChangeListenerOpts) : Nat :=
  match o.ackTimeoutMs with
  | some t => if t = 0 then defaultAckTimeoutMs else t
  | none => defaultAckTimeoutMs

/-- Mutation of the stored entry: arm the ack timer at an absolute instant. -/
def armTimerE (t : Nat) (e : StateChangeListenEntry) : StateChangeListenEntry :=
  { e with ackTimer := some t }

/-- Mutation of the stored entry: clear the ack timer handle. -/
def clearTimerE (e : StateChangeListenEntry) : StateChangeListenEntry :=
  { e with ackTimer := none }

/-- Mutation of the stored entry: overwrite the queued-value slot. -/
def setQueuedE (v : SV) (e : StateChangeListenEntry) : StateChangeListenEntry :=
  { e with queuedVal := v }

/-- Apply a mutation to the entry stored under an id (the source mutates
the entry object through the shared reference in stateChangeListeners). -/
def updEntry (s : AckState) (id : String) (f : StateChangeListenEntry → StateChangeListenEntry) :
    AckState :=
  { s with listeners := updA s.listeners id f }

/-- Tags for the four mutually recursive ack operations. -/
inductive AckCall where
  | hsc (id : String) (val : SV)
  | ssa (id : String) (val : SV)
  | csfa (id : String)
  | hdsc (id : String)

/-- One fuel-indexed interpreter for the mutually recursive quadruple
handleStateChange (hsc), setStateAck (ssa), checkStateForAck (csfa) and
handleDelayedStateChange (hdsc).  Each case is a direct transcription of
the corresponding method body; every internal call spends one unit of
fuel, and in the source the depth of this cycle is structurally bounded
because checkStateForAck finds the ack timer already cleared on any
nested call. -/
def ackRun : Nat → AckCall → AckState → AckState
  | 0, _, s => s
  | f + 1, AckCall.hsc id val, s =>
    match lookupA s.listeners id with
    | none => s
    | some e =>
      let val2 := applyIntConversion e.opts val
      if e.opts.notIfEqual = true ∧ lookupA s.currentStateValues id = some val2 then
        ackRun f (AckCall.ssa id val2) s
      else
        let s1 := if e.opts.selfAck = true then s
          else updEntry s id (armTimerE (s.now + ackDelayMs e.opts))
        let s2 := { s1 with
          log := Ev.listenerCalled id (lookupA s1.currentStateValues id) val2 :: s1.log }
        if e.opts.selfAck = true then ackRun f (AckCall.ssa id val2) s2 else s2
  | f + 1, AckCall.ssa id val, s =>
    let keyId := nsKey id
    let s1 := { s with currentStateValues := setA s.currentStateValues keyId val }
    let s2 := ackRun f (AckCall.csfa keyId) s1
    { s2 with log := Ev.ackSet id val :: s2.log }
  | f + 1, AckCall.csfa id, s =>
    match lookupA s.listeners id with
    | none => s
    | some e =>
      match e.ackTimer with
      | none => s
      | some _ =>
        let s1 := updEntry s id clearTimerE
        ackRun f (AckCall.hdsc id) s1
  | f + 1, AckCall.hdsc id, s =>
    match lookupA s.listeners id with
    | none => s
    | some e =>
      if e.queuedVal = SV.null then s
      else
        let s1 := ackRun f (AckCall.hsc id e.queuedVal) s
        updEntry s1 id (setQueuedE SV.null)

def handleStateChange (fuel : Nat) (s : AckState) (id : String) (val : SV) : AckState :=
  ackRun fuel (AckCall.hsc id val) s

def setStateAck (fuel : Nat) (s : AckState) (id : String) (val : SV) : AckState :=
  ackRun fuel (AckCall.ssa id val) s

def checkStateForAck (fuel : Nat) (s : AckState) (id : String) : AckState :=
  ackRun fuel (AckCall.csfa id) s

def handleDelayedStateChange (fuel : Nat) (s : AckState) (id : String) : AckState :=
  ackRun fuel (AckCall.hdsc id) s

/-- The ack-timeout callback armed in handleStateChange: warn, count the
timeout, clear the stored handle, then flush any delayed change.  In the
runtime the callback only fires while the timeout is still armed, which
the outer match reflects. -/
def fireAckTimer (fuel : Nat) (s : AckState) (id : String) : AckState :=
  match lookupA s.listeners id with
  | none => s
  | some e =>
    match e.ackTimer with
    | none => s
    | some _ =>
      let s1 := { s with log := Ev.inc ctrAckTimeouts :: Ev.warnAckTimeout id :: s.log }
      let s2 := updEntry s1 id clearTimerE
      ackRun fuel (AckCall.hdsc id) s2

/-- onStateChange from the source: ignore acknowledged, deleted and info
changes; report unsupported targets (log every time, dedup set once);
discard while disconnected; queue while an ack timer runs; otherwise
handle the change directly. -/
def onStateChange (fuel : Nat) (s : AckState) (id : String) (st : Option IoState) : AckState :=
  match st with
  | none => s
  | some state =>
    if id = emptyId ∨ state.ack = true then s
    else if strContains id infoMarker = true then s
    else
      match lookupA s.listeners id with
      | none =>
        let s1 := { s with log := Ev.errorUnsupported id :: s.log }
        if id ∈ s1.reportedUnsupported then s1
        else { s1 with reportedUnsupported := id :: s1.reportedUnsupported }
      | some e =>
        if s.lxConnected = false then
          { s with log := Ev.inc ctrDiscarded :: Ev.warnDisconnected id :: s.log }
        else
          match e.ackTimer with
          | some _ =>
            let s1 := if e.queuedVal = SV.null
              then { s with log := Ev.inc ctrDelayed :: Ev.warnDelayed id state.val :: s.log }
              else { s with log := Ev.inc ctrDiscarded :: Ev.warnSuperseded id e.queuedVal :: s.log }
            updEntry s1 id (setQueuedE state.val)
          | none => ackRun fuel (AckCall.hsc id state.val) s

/-- Advance the state clock; models real time passing between calls. -/
def atTime (s : AckState) (t : Nat) : AckState := { s with now := t }

/-- addStateChangeListener: registration overwrites any previous entry,
with an empty queued slot and no armed timer. -/
def addStateChangeListener (s : AckState) (id : String) (opts : StateChangeListenerOpts) :
    AckState :=
  let entry : StateChangeListenEntry := { opts := opts, queuedVal := SV.null, ackTimer := none }
  { s with listeners := setA s.listeners (nsKey id) entry }

/-- An inbound protocol event (LoxoneEvent). -/
structure LoxEvent where
  uuid : String
  evt : SV
deriving DecidableEq

/-- Observable events of the connection supervisor. -/
inductive CEv where
  | warnConnectInProgress
  | errOpen
  | errStructFetch
  | errStructLoad
  | errEnable
  | socketClosed
  | setConnection (b : Bool)
  | timerScheduled (delayMs : Nat)
  | warnDiscardQueue (n : Nat)
deriving DecidableEq

/-- The slice of the adapter state owned by the connection supervisor and
the event queue: the mutual-exclusion flag of connect, the connection
indicator, whether a reconnect timer is pending, the run and re-entrancy
flags of the event queue, the queue contents and the observable log. -/
structure ConnState where
  connectionInProgress : Bool
  lxConnected : Bool
  reconnectTimerArmed : Bool
  runQueue : Bool
  queueRunning : Bool
  queue : List LoxEvent
  log : List CEv
deriving DecidableEq

/-- Outcomes of the transport and structure-load steps that connect
awaits; each models whether the corresponding awaited call throws. -/
structure ConnOracle where
  openOk : Bool
  fetchOk : Bool
  loadOk : Bool
  enableOk : Bool
deriving DecidableEq

/-- The drain loop of handleEventQueue.  The per-event work of
handleEvent is hidden from the queue; its only queue-visible effect is the
list of events the transport callback enqueues while the event is being
awaited, given by the eff parameter.  Those arrivals append to the tail
of the remaining queue, and the while loop runs until dequeue reports
empty.  The result is the sequence of dispatched events (in dispatch
order) and the undrained remainder (empty unless the fuel, which only
bounds this embedding and not the source, runs out). -/
def drainLoop (eff : LoxEvent → List LoxEvent) : Nat → List LoxEvent →
    List LoxEvent × List LoxEvent
  | 0, q => ([], q)
  | _ + 1, [] => ([], [])
  | f + 1, e :: q =>
    let r := drainLoop eff f (q ++ eff e)
    (e :: r.1, r.2)

/-- handleEventQueue: a no-op while the run flag is false or a drain is
already in progress; otherwise it sets queueRunning, dequeues and fully
dispatches events one at a time until the queue is empty, and clears
queueRunning again (so the flag is back to false in the result).  Also
returns the dispatch sequence, the observable of the drain. -/
def handleEventQueue (eff : LoxEvent → List LoxEvent) (fuel : Nat) (s : ConnState) :
    ConnState × List LoxEvent :=
  if s.runQueue = false then (s, [])
  else if s.queueRunning = true then (s, [])
  else
    let r := drainLoop eff fuel s.queue
    ({ s with queue := r.2 }, r.1)

/-- setConnectionState: record the flag and publish info.connection. -/
def setConnectionState (s : ConnState) (b : Bool) : ConnState :=
  { s with lxConnected := b, log := CEv.setConnection b :: s.log }

/-- reconnect: arm a single fixed-delay retry timer unless one is already
pending or a connect attempt is in flight. -/
def reconnect (s : ConnState) : ConnState :=
  if s.reconnectTimerArmed = true then s
  else if s.connectionInProgress = true then s
  else { s with reconnectTimerArmed := true,
                log := CEv.timerScheduled reconnectTimeoutMs :: s.log }

/-- loadStructureFile: fetch and parse the structure description, then
rebuild the bindings (loadStructureFileAsync), whose last step sets the
queue running and replays everything queued during the rebuild.  A throw
during the rebuild happens before the run flag is set. -/
def loadStructureFile (eff : LoxEvent → List LoxEvent) (fuel : Nat) (o : ConnOracle)
    (s : ConnState) : ConnState × Bool :=
  if o.fetchOk = false then ({ s with log := CEv.errStructFetch :: s.log }, false)
  else if o.loadOk = false then ({ s with log := CEv.errStructLoad :: s.log }, false)
  else
    let s2 := { s with runQueue := true }
    ((handleEventQueue eff fuel s2).1, true)

/-- connect: reject a concurrent attempt with a warning; otherwise run
open, structure load and enable-updates in order, abandoning on the
first failure; afterwards drop the mutual-exclusion flag, then either
close the transport and schedule a reconnect (failure) or set the
connection indicator (success). -/
def connect (eff : LoxEvent → List LoxEvent) (fuel : Nat) (o : ConnOracle)
    (s : ConnState) : ConnState :=
  if s.connectionInProgress = true then
    { s with log := CEv.warnConnectInProgress :: s.log }
  else
    let s1 := { s with connectionInProgress := true }
    let r :=
      if o.openOk = false then ({ s1 with log := CEv.errOpen :: s1.log }, false)
      else
        let r2 := loadStructureFile eff fuel o s1
        if r2.2 = false then r2
        else if o.enableOk = false then ({ r2.1 with log := CEv.errEnable :: r2.1.log }, false)
        else r2
    let s3 := { r.1 with connectionInProgress := false }
    if r.2 = false then reconnect { s3 with log := CEv.socketClosed :: s3.log }
    else setConnectionState s3 true

/-- Reason code for a deliberate local shutdown
(LxCommunicator.SupportCode.WEBSOCKET_MANUAL_CLOSE; only its identity
matters to the handler). -/
def websocketManualClose : Nat := 4110

/-- socketOnConnectionClosed: drop the connection indicator, stop the
queue, warn with the discarded count when the queue is not empty, clear
it, and schedule a reconnect unless the close was the manual one. -/
def socketOnConnectionClosed (s : ConnState) (code : Nat) : ConnState :=
  let s1 := setConnectionState s false
  let s2 := { s1 with runQueue := false }
  let s3 := if 0 < s2.queue.length
    then { s2 with log := CEv.warnDiscardQueue s2.queue.length :: s2.log }
    else s2
  let s4 := { s3 with queue := [] }
  if code ≠ websocketManualClose then reconnect s4 else s4

/-- One entry of a per-detail breakdown map (infoDetailsEntry); lastValue
is none when the source leaves the property undefined. -/
structure InfoDetail where
  count : Nat
  lastValue : Option SV
deriving DecidableEq

/-- One named counter (InfoEntry): the live value, the last persisted
value (none models null), the armed flush timer as an absolute expiry
instant, and the optional detail breakdown. -/
structure InfoEntry where
  value : Option Int
  lastSet : Option Int
  timer : Option Nat
  hasDetails : Bool
  details : List (String × InfoDetail)
deriving DecidableEq

/-- Observable persistence events of the counter subsystem, stamped with
the state clock at the instant of the write. -/
inductive IEv where
  | persist (id : String) (v : Option Int) (t : Nat)
  | persistDetail (id : String) (d : List (String × InfoDetail)) (t : Nat)
  | errNoEntry (id : String)
deriving DecidableEq

/-- The counter subsystem state: the clock, the info map and the log. -/
structure InfoState where
  now : Nat
  info : List (String × InfoEntry)
  log : List IEv
deriving DecidableEq

def atTimeI (s : InfoState) (t : Nat) : InfoState := { s with now := t }

/-- The flush window (30000 time-units, the literal in the source). -/
def flushWindowMs : Nat := 30000

/-- JavaScript Number coercion of the stored counter value: null is 0. -/
def toNum : Option Int → Int
  | none => 0
  | some n => n

/-- addInfoDetailsEntry: upsert a count and last value under a detail id. -/
def addInfoDetailsEntry (details : List (String × InfoDetail)) (id : String)
    (value : Option SV) : List (String × InfoDetail) :=
  match lookupA details id with
  | some _ => updA details id (fun d =>
      { count := d.count + 1,
        lastValue := if value.isSome then value else d.lastValue })
  | none => details ++ [(id, { count := 1, lastValue := value })]

/-- setInfoStateIfChanged: persist the value (and detail breakdown) only
when the live value differs from the last persisted one (the loose
inequality of the source agrees with option inequality here); then record
the new persisted value and, except on shutdown, arm the one-shot flush
timer.  On shutdown the stored handle is left as the source leaves it. -/
def setInfoStateIfChanged (s : InfoState) (id : String) (shutdown : Bool) : InfoState :=
  match lookupA s.info id with
  | none => s
  | some e =>
    if e.value ≠ e.lastSet then
      let log1 := IEv.persist id e.value s.now :: s.log
      let log2 := if e.hasDetails then IEv.persistDetail id e.details s.now :: log1 else log1
      let e2 := { e with lastSet := e.value }
      let e3 := if shutdown then e2 else { e2 with timer := some (s.now + flushWindowMs) }
      { s with info := updA s.info id (fun _ => e3), log := log2 }
    else s

/-- incInfoState: increment the counter (a missing entry is an internal
error, logged and otherwise a no-op), record the detail when the entry
keeps details and a detail id was given, and attempt an immediate flush
only when no flush timer is armed. -/
def incInfoState (s : InfoState) (id : String) (detailId : Option String)
    (detailValue : Option SV) : InfoState :=
  match lookupA s.info id with
  | none => { s with log := IEv.errNoEntry id :: s.log }
  | some e =>
    let e2 := { e with value := some (toNum e.value + 1) }
    let e3 := if e2.hasDetails && detailId.isSome
      then { e2 with details := addInfoDetailsEntry e2.details (detailId.getD emptyId) detailValue }
      else e2
    let s2 := { s with info := updA s.info id (fun _ => e3) }
    if e3.timer = none then setInfoStateIfChanged s2 id false else s2

/-- The flush-timer callback: clear the stored handle, then re-attempt
the flush (which re-arms the timer if it persists again).  In the
runtime the callback only fires while the timeout is armed. -/
def fireInfoTimer (s : InfoState) (id : String) : InfoState :=
  match lookupA s.info id with
  | none => s
  | some e =>
    match e.timer with
    | none => s
    | some _ =>
      let s1 := { s with info := updA s.info id (fun e2 => { e2 with timer := none }) }
      setInfoStateIfChanged s1 id false

/-- flushInfoStates, called on shutdown: for every counter whose flush
timer is armed, cancel the timer and force a flush ignoring the rate
limit.  The source cancels via clearTimeout without nulling the stored
handle, so the handle is left in place while the callback can no longer
fire. -/
def flushInfoStates (s : InfoState) : InfoState :=
  (s.info.map (fun p => p.1)).foldl
    (fun acc id =>
      match lookupA acc.info id with
      | some e => if e.timer.isSome then setInfoStateIfChanged acc id true else acc
      | none => acc) s

/-- Dispatch a sequence of unacknowledged writes on one id, in order. -/
def dispatchSeq (fuel : Nat) (s : AckState) (id : String) (vs : List SV) : AckState :=
  vs.foldl (fun acc v => onStateChange fuel acc id (some { val := v, ack := false })) s

/-- Expected log fragment (newest first) for a run of dispatches that all
find a value already queued: each one discards the previous value. -/
def busyLog (id : String) : SV → List SV → List Ev
  | _, [] => []
  | q, v :: vs => busyLog id v vs ++ [Ev.inc ctrDiscarded, Ev.warnSuperseded id q]

/-- Expected log fragment for a dispatch run that starts with an empty
queued slot: the first is reported delayed, every later one superseded. -/
def c1Log (id : String) (v0 : SV) (rest : List SV) : List Ev :=
  busyLog id v0 rest ++ [Ev.inc ctrDelayed, Ev.warnDelayed id v0]

/-! Concrete states used by the claim scenarios. -/

def idA : String := "loxone.0.light"

def idB : String := "loxone.0.jalousie"

def idW : String := "loxone.0.dimmer"

def idU : String := "loxone.0.unknowndev"

def idC : String := "loxone.0.valve"

def idG : String := "loxone.0.gate"

/-- Item registered with an ackTimeoutMs override of 100 time-units. -/
def c2opts : StateChangeListenerOpts := { ackTimeoutMs := some 100 }

def c2entry : StateChangeListenEntry := { opts := c2opts }

/-- Initial state of the end-to-end ack-timeout scenario: connected, the
item registered, the last acknowledged value being 3. -/
def c2s0 : AckState :=
  { now := 0, lxConnected := true, currentStateValues := [(idA, SV.num 3)],
    listeners := [(idA, c2entry)], reportedUnsupported := [], log := [] }

def c2st5 : Option IoState := some { val := SV.num 5, ack := false }

def c2st7 : Option IoState := some { val := SV.num 7, ack := false }

def c2s1 : AckState := onStateChange 9 c2s0 idA c2st5

def c2s2 : AckState := onStateChange 9 (atTime c2s1 50) idA c2st7

def c2s3 : AckState := fireAckTimer 9 (atTime c2s2 100) idA

/-- Registered entry with an armed ack timer and empty queued slot. -/
def c1xEntry : StateChangeListenEntry := { ackTimer := some 500 }

def c1xS0 : AckState :=
  { now := 0, lxConnected := true, currentStateValues := [],
    listeners := [(idB, c1xEntry)], reportedUnsupported := [], log := [] }

/-- Dispatch a null write and then a numeric write while the ack timer
runs. -/
def c1xS2 : AckState := dispatchSeq 9 c1xS0 idB [SV.null, SV.num 5]

def c1wEntry : StateChangeListenEntry := { ackTimer := some 500 }

def c1wS0 : AckState :=
  { now := 0, lxConnected := true, currentStateValues := [],
    listeners := [(idW, c1wEntry)], reportedUnsupported := [], log := [] }

def c9s0 : AckState :=
  { now := 0, lxConnected := true, currentStateValues := [],
    listeners := [], reportedUnsupported := [], log := [] }

def c9st : Option IoState := some { val := SV.num 1, ack := false }

/-- Two dispatches on the same unregistered id. -/
def c9s2 : AckState := onStateChange 9 (onStateChange 9 c9s0 idU c9st) idU c9st

def c3e : StateChangeListenEntry := { queuedVal := SV.num 9, ackTimer := some 77 }

def c3s : AckState :=
  { now := 10, lxConnected := true, currentStateValues := [],
    listeners := [(idC, c3e)], reportedUnsupported := [], log := [] }

def c10e : StateChangeListenEntry := { ackTimer := some 500 }

def c10s : AckState :=
  { now := 0, lxConnected := true, currentStateValues := [],
    listeners := [(idG, c10e)], reportedUnsupported := [], log := [] }

def uuidA : String := "uuid-a"

def uuidB : String := "uuid-b"

def evA : LoxEvent := { uuid := uuidA, evt := SV.num 1 }

def evB : LoxEvent := { uuid := uuidB, evt := SV.num 2 }

/-- Transport behaviour in which handling the first event causes one more
event to arrive while it is being awaited. -/
def effW (e : LoxEvent) : List LoxEvent := if e.uuid = uuidA then [evB] else []

/-- Transport behaviour in which no event arrives during dispatch. -/
def effNone (_ : LoxEvent) : List LoxEvent := []

def c4wS : ConnState :=
  { connectionInProgress := false, lxConnected := true, reconnectTimerArmed := false,
    runQueue := true, queueRunning := false, queue := [evA], log := [] }

def oAll : ConnOracle := { openOk := true, fetchOk := true, loadOk := true, enableOk := true }

def oFailOpen : ConnOracle := { openOk := false, fetchOk := true, loadOk := true, enableOk := true }

/-- A quiescent supervisor state: idle, disconnected, no pending timer. -/
def connIdle : ConnState :=
  { connectionInProgress := false, lxConnected := false, reconnectTimerArmed := false,
    runQueue := false, queueRunning := false, queue := [], log := [] }

def c7wS : ConnState := { connIdle with lxConnected := true, queue := [evA, evB] }

def ctrMsg : String := "info.messagesReceived"

/-- A fresh counter entry as initInfoState creates it when no persisted
value exists (null value, null last-persisted, no timer, no details). -/
def infoInit : InfoEntry :=
  { value := none, lastSet := none, timer := none, hasDetails := false, details := [] }

def c8s0 : InfoState := { now := 0, info := [(ctrMsg, infoInit)], log := [] }

def c8s1 : InfoState := incInfoState (atTimeI c8s0 0) ctrMsg none none

def c8s2 : InfoState := incInfoState (atTimeI c8s1 10000) ctrMsg none none

def c8s3 : InfoState := fireInfoTimer (atTimeI c8s2 30000) ctrMsg

def c8s4 : InfoState := incInfoState (atTimeI c8s3 40000) ctrMsg none none

def c8s5 : InfoState := fireInfoTimer (atTimeI c8s4 60000) ctrMsg

def c8s6 : InfoState := incInfoState (atTimeI c8s5 70000) ctrMsg none none

/-- The shutdown flush at the end of the counter scenario. -/
def c8s7 : InfoState := flushInfoStates c8s6

/-- The first step of setStateAck: record the acknowledged value under
the namespaced key (currentStateValues[keyId] = value). -/
def recordAck (s : AckState) (id : String) (v : SV) : AckState :=
  { s with currentStateValues := setA s.currentStateValues (nsKey id) v }

/-- The last step of setStateAck: the acknowledged write to the store. -/
def pushAckLog (id : String) (v : SV) (s : AckState) : AckState :=
  { s with log := Ev.ackSet id v :: s.log }

/-! Association-list lemmas. -/

@[simp]
theorem lookupA_updA_self {α : Type} (l : List (String × α)) (k : String) (f : α → α) :
    lookupA (updA l k f) k = (lookupA l k).map f := by
  induction l with
  | nil => rfl
  | cons p tl ih =>
    by_cases h : p.1 = k
    · simp [updA, lookupA, h]
    · simp [updA, lookupA, h, ih]

theorem lookupA_updA_ne {α : Type} (l : List (String × α)) (k k2 : String) (f : α → α)
    (h : k2 ≠ k) : lookupA (updA l k f) k2 = lookupA l k2 := by
  induction l with
  | nil => rfl
  | cons p tl ih =>
    by_cases hp : p.1 = k
    · have h2 : ¬ p.1 = k2 := fun hk => h (by rw [← hk, hp])
      simp [updA, lookupA, hp, h2, ih, Ne.symm h]
    · by_cases hq : p.1 = k2 <;> simp [updA, lookupA, hp, hq, ih, h]

/-! Drain-loop lemmas for the event queue. -/

theorem drainLoop_complete (eff : LoxEvent → List LoxEvent) :
    ∀ (f : Nat) (q ps : List LoxEvent), drainLoop eff f q = (ps, []) →
      List.Sublist q ps ∧ (∀ e, e ∈ ps → ∀ x, x ∈ eff e → x ∈ ps) := by
  intro f
  induction f with
  | zero =>
    intro q ps h
    simp only [drainLoop] at h
    obtain ⟨h1, h2⟩ := Prod.mk.injEq .. ▸ h
    subst h2
    simp [← h1]
  | succ f ih =>
    intro q ps h
    cases q with
    | nil =>
      simp only [drainLoop] at h
      obtain ⟨h1, _⟩ := Prod.mk.injEq .. ▸ h
      simp [← h1]
    | cons e q =>
      simp only [drainLoop] at h
      obtain ⟨h1, h2⟩ := Prod.mk.injEq .. ▸ h
      have hrec : drainLoop eff f (q ++ eff e) = ((drainLoop eff f (q ++ eff e)).1, []) := by
        rw [← h2]
      obtain ⟨hsub, hclosed⟩ := ih (q ++ eff e) (drainLoop eff f (q ++ eff e)).1 hrec
      subst h1
      constructor
      · exact List.Sublist.cons₂ e
          (List.Sublist.trans (List.sublist_append_left q (eff e)) hsub)
      · intro e2 he2 x hx
        rcases List.mem_cons.mp he2 with he2 | he2
        · subst he2
          exact List.mem_cons_of_mem _ (hsub.subset (List.mem_append_right q hx))
        · exact List.mem_cons_of_mem _ (hclosed e2 he2 x hx)

/-- C4: handleEventQueue is a no-op while the run flag is false or while
a drain is already in progress (re-entrancy guard); otherwise the drain
loop dequeues the head and fully dispatches it before the next dequeue
(the step equation), looping until the queue reports empty, so when the
drain finishes with an empty remainder the dispatch sequence contains
the initial queue in FIFO order, and every event that arrived during
the drain itself was dispatched within the same call, never lost. -/
theorem c4_drain (eff : LoxEvent → List LoxEvent) (fuel : Nat) (s : ConnState) :
    (s.runQueue = false → handleEventQueue eff fuel s = (s, [])) ∧
    (s.queueRunning = true → handleEventQueue eff fuel s = (s, [])) ∧
    (∀ (f : Nat) (e : LoxEvent) (q : List LoxEvent),
      drainLoop eff (f + 1) (e :: q)
        = (e :: (drainLoop eff f (q ++ eff e)).1, (drainLoop eff f (q ++ eff e)).2)) ∧
    (∀ ps, s.runQueue = true → s.queueRunning = false →
      drainLoop eff fuel s.queue = (ps, []) →
      handleEventQueue eff fuel s = ({ s with queue := [] }, ps) ∧
      List.Sublist s.queue ps ∧
      (∀ e, e ∈ ps → ∀ x, x ∈ eff e → x ∈ ps)) := by
  refine ⟨?_, ?_, ?_, ?_⟩
  · intro h; simp [handleEventQueue, h]
  · intro h
    by_cases hr : s.runQueue = false <;> simp [handleEventQueue, hr, h]
  · intro f e q; rfl
  · intro ps hr hq hd
    obtain ⟨hsub, hclosed⟩ := drainLoop_complete eff fuel s.queue ps hd
    refine ⟨?_, hsub, hclosed⟩
    simp [handleEventQueue, hr, hq, hd]

theorem c4_witness :
    handleEventQueue effW 3 c4wS = ({ c4wS with queue := [] }, [evA, evB]) :=
  ((c4_drain effW 3 c4wS).2.2.2 [evA, evB] rfl rfl (by decide)).1

/-! The drain changes nothing in the supervisor state except the queue. -/

@[simp]
theorem handleEventQueue_connectionInProgress (eff : LoxEvent → List LoxEvent) (fu : Nat)
    (s : ConnState) :
    (handleEventQueue eff fu s).1.connectionInProgress = s.connectionInProgress := by
  by_cases h1 : s.runQueue = false <;> by_cases h2 : s.queueRunning = true <;>
    simp [handleEventQueue, h1, h2]

@[simp]
theorem handleEventQueue_lxConnected (eff : LoxEvent → List LoxEvent) (fu : Nat)
    (s : ConnState) : (handleEventQueue eff fu s).1.lxConnected = s.lxConnected := by
  by_cases h1 : s.runQueue = false <;> by_cases h2 : s.queueRunning = true <;>
    simp [handleEventQueue, h1, h2]

@[simp]
theorem handleEventQueue_reconnectTimerArmed (eff : LoxEvent → List LoxEvent) (fu : Nat)
    (s : ConnState) :
    (handleEventQueue eff fu s).1.reconnectTimerArmed = s.reconnectTimerArmed := by
  by_cases h1 : s.runQueue = false <;> by_cases h2 : s.queueRunning = true <;>
    simp [handleEventQueue, h1, h2]

@[simp]
theorem handleEventQueue_runQueue (eff : LoxEvent → List LoxEvent) (fu : Nat)
    (s : ConnState) : (handleEventQueue eff fu s).1.runQueue = s.runQueue := by
  by_cases h1 : s.runQueue = false <;> by_cases h2 : s.queueRunning = true <;>
    simp [handleEventQueue, h1, h2]

@[simp]
theorem handleEventQueue_queueRunning (eff : LoxEvent → List LoxEvent) (fu : Nat)
    (s : ConnState) : (handleEventQueue eff fu s).1.queueRunning = s.queueRunning := by
  by_cases h1 : s.runQueue = false <;> by_cases h2 : s.queueRunning = true <;>
    simp [handleEventQueue, h1, h2]

@[simp]
theorem handleEventQueue_log (eff : LoxEvent → List LoxEvent) (fu : Nat)
    (s : ConnState) : (handleEventQueue eff fu s).1.log = s.log := by
  by_cases h1 : s.runQueue = false <;> by_cases h2 : s.queueRunning = true <;>
    simp [handleEventQueue, h1, h2]

/-- C6: reconnect schedules a single fixed-delay retry of
reconnectTimeoutMs (5000) time-units; while a retry timer is pending or
a connect attempt is in flight it schedules nothing, so it is
idempotent and two calls in quick succession add exactly one scheduled
timer (none when one was pending or a connect was in flight). -/
theorem c6_reconnect (s : ConnState) :
    reconnect (reconnect s) = reconnect s ∧
    reconnect s = (if s.reconnectTimerArmed = true then s
      else if s.connectionInProgress = true then s
      else { s with reconnectTimerArmed := true,
                    log := CEv.timerScheduled reconnectTimeoutMs :: s.log }) ∧
    (reconnect (reconnect s)).log.count (CEv.timerScheduled reconnectTimeoutMs)
      = s.log.count (CEv.timerScheduled reconnectTimeoutMs)
        + (if s.reconnectTimerArmed = false ∧ s.connectionInProgress = false
           then 1 else 0) := by
  by_cases h1 : s.reconnectTimerArmed = true <;>
    by_cases h2 : s.connectionInProgress = true <;>
      simp [reconnect, h1, h2, List.count_cons]

/-- C7: on a transport-reported close the handler drops the connection
indicator, stops and clears the event queue, warns with the discarded
count equal to the queue length at the instant of stop exactly when
that length is non-zero, and schedules a reconnect (when none is
pending and no connect is in flight) unless the close reason is the
deliberate manual-close code. -/
theorem c7_closed (s : ConnState) (code : Nat) :
    (socketOnConnectionClosed s code).lxConnected = false ∧
    (socketOnConnectionClosed s code).runQueue = false ∧
    (socketOnConnectionClosed s code).queue = [] ∧
    (socketOnConnectionClosed s code).log
      = (if code ≠ websocketManualClose ∧ s.reconnectTimerArmed = false
            ∧ s.connectionInProgress = false
         then [CEv.timerScheduled reconnectTimeoutMs] else [])
        ++ (if 0 < s.queue.length then [CEv.warnDiscardQueue s.queue.length] else [])
        ++ CEv.setConnection false :: s.log ∧
    (socketOnConnectionClosed s code).reconnectTimerArmed
      = (if code ≠ websocketManualClose ∧ s.reconnectTimerArmed = false
            ∧ s.connectionInProgress = false
         then true else s.reconnectTimerArmed) := by
  by_cases hc : code = websocketManualClose <;>
    by_cases hq : 0 < s.queue.length <;>
      by_cases h1 : s.reconnectTimerArmed = true <;>
        by_cases h2 : s.connectionInProgress = true <;>
          simp [socketOnConnectionClosed, setConnectionState, reconnect, hc, hq, h1, h2]

/-- C5: connect, started while idle and disconnected, ends connected
exactly when the open, structure fetch, structure load and
enable-updates steps all succeed; on full success it leaves the event
queue running, touches no reconnect timer and publishes the connection;
on failure of any step it closes the transport, schedules a reconnect
and leaves the connection indicator false; the mutual-exclusion flag is
back down afterwards. -/
theorem c5_connect (eff : LoxEvent → List LoxEvent) (fuel : Nat) (o : ConnOracle)
    (s : ConnState) (hp : s.connectionInProgress = false) (hc : s.lxConnected = false) :
    (connect eff fuel o s).lxConnected = (o.openOk && o.fetchOk && o.loadOk && o.enableOk) ∧
    ((o.openOk && o.fetchOk && o.loadOk && o.enableOk) = true →
      (connect eff fuel o s).runQueue = true ∧
      (connect eff fuel o s).log = CEv.setConnection true :: s.log ∧
      (connect eff fuel o s).reconnectTimerArmed = s.reconnectTimerArmed) ∧
    ((o.openOk && o.fetchOk && o.loadOk && o.enableOk) = false →
      CEv.socketClosed ∈ (connect eff fuel o s).log ∧
      (connect eff fuel o s).reconnectTimerArmed = true ∧
      (connect eff fuel o s).lxConnected = false) ∧
    (connect eff fuel o s).connectionInProgress = false := by
  obtain ⟨op, fe, lo, en⟩ := o
  cases op <;> cases fe <;> cases lo <;> cases en <;>
    by_cases h3 : s.reconnectTimerArmed = true <;>
      simp [connect, loadStructureFile, reconnect, setConnectionState, hp, hc, h3]

theorem c5_witness :
    (connect effNone 3 oAll connIdle).lxConnected = true ∧
    (connect effNone 3 oFailOpen connIdle).reconnectTimerArmed = true :=
  ⟨by
    have h := (c5_connect effNone 3 oAll connIdle rfl rfl).1
    simpa using h,
   ((c5_connect effNone 3 oFailOpen connIdle rfl rfl).2.2.1 (by decide)).2.1⟩

/-! Step lemmas for onStateChange. -/

theorem onStateChange_busy (f : Nat) (s : AckState) (id : String)
    (e : StateChangeListenEntry) (t : Nat) (v : SV)
    (hid : ¬ id = emptyId) (hinfo : strContains id infoMarker = false)
    (hlk : lookupA s.listeners id = some e) (hconn : s.lxConnected = true)
    (ht : e.ackTimer = some t) :
    onStateChange f s id (some { val := v, ack := false })
      = updEntry (if e.queuedVal = SV.null
          then { s with log := Ev.inc ctrDelayed :: Ev.warnDelayed id v :: s.log }
          else { s with log := Ev.inc ctrDiscarded :: Ev.warnSuperseded id e.queuedVal :: s.log })
          id (setQueuedE v) := by
  simp [onStateChange, hid, hinfo, hlk, hconn, ht]

theorem onStateChange_unregistered (f : Nat) (s : AckState) (id : String) (v : SV)
    (hid : ¬ id = emptyId) (hinfo : strContains id infoMarker = false)
    (hlk : lookupA s.listeners id = none) :
    (onStateChange f s id (some { val := v, ack := false })).log
      = Ev.errorUnsupported id :: s.log ∧
    (onStateChange f s id (some { val := v, ack := false })).listeners = s.listeners ∧
    (onStateChange f s id (some { val := v, ack := false })).currentStateValues
      = s.currentStateValues ∧
    (onStateChange f s id (some { val := v, ack := false })).reportedUnsupported
      = (if id ∈ s.reportedUnsupported then s.reportedUnsupported
         else id :: s.reportedUnsupported) ∧
    (onStateChange f s id (some { val := v, ack := false })).lxConnected = s.lxConnected := by
  by_cases hm : id ∈ s.reportedUnsupported <;>
    simp [onStateChange, hid, hinfo, hlk, hm]

theorem listenerCalled_not_in_busyLog (id id2 : String) (o : Option SV) (n : SV) :
    ∀ (vs : List SV) (q : SV), Ev.listenerCalled id2 o n ∉ busyLog id q vs := by
  intro vs
  induction vs with
  | nil => intro q; simp [busyLog]
  | cons v vs ih => intro q; simp [busyLog, ih]

theorem dispatchSeq_busy (f : Nat) (id : String) (hid : ¬ id = emptyId)
    (hinfo : strContains id infoMarker = false) :
    ∀ (vs : List SV) (s : AckState) (e : StateChangeListenEntry) (t : Nat),
      lookupA s.listeners id = some e → s.lxConnected = true → e.ackTimer = some t →
      e.queuedVal ≠ SV.null → (∀ v ∈ vs, v ≠ SV.null) →
      (dispatchSeq f s id vs).log = busyLog id e.queuedVal vs ++ s.log ∧
      lookupA (dispatchSeq f s id vs).listeners id
        = some { e with queuedVal := vs.getLastD e.queuedVal } ∧
      (dispatchSeq f s id vs).currentStateValues = s.currentStateValues ∧
      (dispatchSeq f s id vs).lxConnected = s.lxConnected ∧
      (dispatchSeq f s id vs).now = s.now ∧
      (dispatchSeq f s id vs).reportedUnsupported = s.reportedUnsupported := by
  intro vs
  induction vs with
  | nil =>
    intro s e t hlk hconn ht hq hnn
    refine ⟨?_, ?_, rfl, rfl, rfl, rfl⟩
    · simp [dispatchSeq, busyLog]
    · simp [dispatchSeq, hlk]
  | cons v vs ih =>
    intro s e t hlk hconn ht hq hnn
    have hstep := onStateChange_busy f s id e t v hid hinfo hlk hconn ht
    rw [if_neg hq] at hstep
    have hseq : dispatchSeq f s id (v :: vs)
        = dispatchSeq f (onStateChange f s id (some { val := v, ack := false })) id vs := rfl
    have hnn1 : v ≠ SV.null := hnn v (List.mem_cons_self v vs)
    have hnn2 : ∀ w ∈ vs, w ≠ SV.null := fun w hw => hnn w (List.mem_cons_of_mem v hw)
    obtain ⟨ihl, ihlk, ihcsv, ihlx, ihnow, ihrep⟩ :=
      ih (updEntry
            { s with log := Ev.inc ctrDiscarded :: Ev.warnSuperseded id e.queuedVal :: s.log }
            id (setQueuedE v))
        { e with queuedVal := v } t
        (by simp [updEntry, hlk, setQueuedE]) (by simp [updEntry, hconn]) ht hnn1 hnn2
    refine ⟨?_, ?_, ?_, ?_, ?_, ?_⟩
    · rw [hseq, hstep, ihl]
      simp [busyLog, updEntry, List.append_assoc]
    · rw [hseq, hstep, ihlk, List.getLastD_cons]
    · rw [hseq, hstep, ihcsv]
      simp [updEntry]
    · rw [hseq, hstep, ihlx]
      simp [updEntry]
    · rw [hseq, hstep, ihnow]
      simp [updEntry]
    · rw [hseq, hstep, ihrep]
      simp [updEntry]

/-- C1 (counterexample): dispatching the null value and then 5 on one
registered, connected item while its ack timer runs keeps the listener
silent and retains only the last value, but the second dispatch is
reported as delayed, not as superseded as the claim requires for every
later call, because the slot occupied by the queued null is
indistinguishable from an empty one. -/
theorem c1_counterexample :
    c1xS2.log = [Ev.inc ctrDelayed, Ev.warnDelayed idB (SV.num 5),
      Ev.inc ctrDelayed, Ev.warnDelayed idB SV.null] ∧
    c1xS2.log.count (Ev.warnSuperseded idB SV.null) = 0 ∧
    lookupA c1xS2.listeners idB = some { c1xEntry with queuedVal := SV.num 5 } := by
  decide

/-- C1 (amended): for every sequence of non-null dispatches on one
registered item while connected, with an ack timer armed and an empty
queued slot and no intervening confirmation or timeout, the listener is
never invoked, only the last dispatched value is retained in the queued
slot (the ack timer staying armed), the first call is reported as
delayed and each later call discards the previously queued value,
reported as superseded. -/
theorem c1_amended (f : Nat) (s : AckState) (id : String) (e : StateChangeListenEntry)
    (t : Nat) (v0 : SV) (rest : List SV)
    (hid : ¬ id = emptyId) (hinfo : strContains id infoMarker = false)
    (hlk : lookupA s.listeners id = some e) (hconn : s.lxConnected = true)
    (ht : e.ackTimer = some t) (hq : e.queuedVal = SV.null)
    (h0 : v0 ≠ SV.null) (hnn : ∀ v ∈ rest, v ≠ SV.null) :
    (dispatchSeq f s id (v0 :: rest)).log = c1Log id v0 rest ++ s.log ∧
    lookupA (dispatchSeq f s id (v0 :: rest)).listeners id
      = some { e with queuedVal := rest.getLastD v0 } ∧
    (∀ id2 o n, Ev.listenerCalled id2 o n ∈ (dispatchSeq f s id (v0 :: rest)).log →
      Ev.listenerCalled id2 o n ∈ s.log) ∧
    (dispatchSeq f s id (v0 :: rest)).currentStateValues = s.currentStateValues := by
  have hstep := onStateChange_busy f s id e t v0 hid hinfo hlk hconn ht
  rw [if_pos hq] at hstep
  have hseq : dispatchSeq f s id (v0 :: rest)
      = dispatchSeq f (onStateChange f s id (some { val := v0, ack := false })) id rest := rfl
  obtain ⟨ihl, ihlk, ihcsv, _, _, _⟩ :=
    dispatchSeq_busy f id hid hinfo rest
      (updEntry { s with log := Ev.inc ctrDelayed :: Ev.warnDelayed id v0 :: s.log }
        id (setQueuedE v0))
      { e with queuedVal := v0 } t
      (by simp [updEntry, hlk, setQueuedE]) (by simp [updEntry, hconn]) ht h0 hnn
  refine ⟨?_, ?_, ?_, ?_⟩
  · rw [hseq, hstep, ihl]
    simp [c1Log, updEntry, List.append_assoc]
  · rw [hseq, hstep, ihlk]
  · intro id2 o n hm
    rw [hseq, hstep, ihl] at hm
    rcases List.mem_append.mp hm with h | h
    · exact absurd h (listenerCalled_not_in_busyLog id id2 o n rest _)
    · simp only [updEntry] at h
      rcases List.mem_cons.mp h with h2 | h2
      · simp at h2
      · rcases List.mem_cons.mp h2 with h3 | h3
        · simp at h3
        · exact h3
  · rw [hseq, hstep, ihcsv]
    simp [updEntry]

theorem c1_witness :
    (dispatchSeq 5 c1wS0 idW [SV.num 1, SV.num 2, SV.num 3]).log
      = c1Log idW (SV.num 1) [SV.num 2, SV.num 3] ++ c1wS0.log :=
  (c1_amended 5 c1wS0 idW c1wEntry 500 (SV.num 1) [SV.num 2, SV.num 3]
    (by decide) (by decide) (by decide) rfl rfl rfl (by decide) (by decide)).1

/-- C2 (counterexample): in the end-to-end scenario with ackTimeoutMs
100 and last acknowledged value 3, when the timer fires the listener is
invoked with (3, 7) and not with (5, 7) as the claim states, because
the value 5 was never confirmed and the previous-value argument is the
last acknowledged value. -/
theorem c2_counterexample :
    Ev.listenerCalled idA (some (SV.num 3)) (SV.num 7) ∈ c2s3.log ∧
    Ev.listenerCalled idA (some (SV.num 5)) (SV.num 7) ∉ c2s3.log := by
  decide

/-- C2 (amended): register the item with ackTimeoutMs 100 and last
acknowledged value 3; the dispatch of 5 invokes the listener with
(3, 5) and arms the timer at 100; the dispatch of 7 before the timeout
is reported as delayed with no second listener call; when the timer
fires at 100 the timeout is warned and counted and the listener is
invoked with (3, 7), the last acknowledged value being unchanged since
no confirmation arrived, with a fresh timer armed at 200. -/
theorem c2_amended :
    c2s1.log = [Ev.listenerCalled idA (some (SV.num 3)) (SV.num 5)] ∧
    lookupA c2s1.listeners idA = some { c2entry with ackTimer := some 100 } ∧
    c2s2.log = [Ev.inc ctrDelayed, Ev.warnDelayed idA (SV.num 7)] ++ c2s1.log ∧
    lookupA c2s2.listeners idA
      = some { c2entry with ackTimer := some 100, queuedVal := SV.num 7 } ∧
    c2s3.log = [Ev.listenerCalled idA (some (SV.num 3)) (SV.num 7),
      Ev.inc ctrAckTimeouts, Ev.warnAckTimeout idA] ++ c2s2.log ∧
    lookupA c2s3.listeners idA
      = some { c2entry with ackTimer := some 200, queuedVal := SV.null } := by
  decide

/-- C3: a confirmation for an item whose ack timer is armed first clears
exactly the timer of that item (all other entries untouched) and then runs
handleDelayedStateChange on the cleared state, which delivers the single
queued superseding value through handleStateChange and empties the slot;
a confirmation for an item with no armed timer, or with no registered
listener at all, leaves the state exactly unchanged; and setStateAck
records the acknowledged value under the namespaced key, runs the
confirmation check on that key, then performs the acknowledged write. -/
theorem c3_confirm (f : Nat) (s : AckState) (id : String) :
    (lookupA s.listeners id = none → checkStateForAck (f + 1) s id = s) ∧
    (∀ e, lookupA s.listeners id = some e → e.ackTimer = none →
      checkStateForAck (f + 1) s id = s) ∧
    (∀ e t, lookupA s.listeners id = some e → e.ackTimer = some t →
      checkStateForAck (f + 1) s id
        = handleDelayedStateChange f (updEntry s id clearTimerE) id ∧
      lookupA (updEntry s id clearTimerE).listeners id = some { e with ackTimer := none } ∧
      (∀ id2, id2 ≠ id → lookupA (updEntry s id clearTimerE).listeners id2
        = lookupA s.listeners id2)) ∧
    (∀ e, lookupA s.listeners id = some e → e.queuedVal ≠ SV.null →
      handleDelayedStateChange (f + 1) s id
        = updEntry (handleStateChange f s id e.queuedVal) id (setQueuedE SV.null)) ∧
    (∀ v, setStateAck (f + 1) s id v
      = pushAckLog id v (checkStateForAck f (recordAck s id v) (nsKey id))) := by
  refine ⟨?_, ?_, ?_, ?_, ?_⟩
  · intro h
    simp [checkStateForAck, ackRun, h]
  · intro e hlk ht
    simp [checkStateForAck, ackRun, hlk, ht]
  · intro e t hlk ht
    refine ⟨?_, ?_, ?_⟩
    · simp only [checkStateForAck, ackRun, hlk, ht]
      rfl
    · simp [updEntry, hlk, clearTimerE]
    · intro id2 hne
      simp only [updEntry]
      exact lookupA_updA_ne s.listeners id id2 clearTimerE hne
  · intro e hlk hqn
    simp [handleDelayedStateChange, handleStateChange, ackRun, hlk, hqn]
  · intro v
    rfl

theorem c3_witness :
    checkStateForAck 6 c3s idC
      = handleDelayedStateChange 5 (updEntry c3s idC clearTimerE) idC :=
  ((c3_confirm 5 c3s idC).2.2.1 c3e 77 (by decide) rfl).1

/-- C10: the empty sentinel of the queued slot is the null value, so a null
write dispatched while the ack timer runs is stored as null (the slot
then indistinguishable from empty); a dispatch arriving while the slot
holds null is reported as delayed and never as superseded, even though
it replaces the earlier queued null; and a null-holding slot is never
delivered, neither by handleDelayedStateChange directly nor after a
confirmation, which then merely clears the timer. -/
theorem c10_nullSentinel (f : Nat) (s : AckState) (id : String)
    (e : StateChangeListenEntry) (t : Nat)
    (hid : ¬ id = emptyId) (hinfo : strContains id infoMarker = false)
    (hlk : lookupA s.listeners id = some e) (hconn : s.lxConnected = true)
    (ht : e.ackTimer = some t) :
    lookupA (onStateChange f s id (some { val := SV.null, ack := false })).listeners id
      = some { e with queuedVal := SV.null } ∧
    (e.queuedVal = SV.null → ∀ v,
      (onStateChange f s id (some { val := v, ack := false })).log
        = [Ev.inc ctrDelayed, Ev.warnDelayed id v] ++ s.log) ∧
    (e.queuedVal = SV.null → handleDelayedStateChange f s id = s) ∧
    (e.queuedVal = SV.null → checkStateForAck (f + 1) s id = updEntry s id clearTimerE) := by
  refine ⟨?_, ?_, ?_, ?_⟩
  · have hstep := onStateChange_busy f s id e t SV.null hid hinfo hlk hconn ht
    rw [hstep]
    by_cases hq : e.queuedVal = SV.null <;> simp [hq, updEntry, hlk, setQueuedE]
  · intro hq v
    have hstep := onStateChange_busy f s id e t v hid hinfo hlk hconn ht
    rw [if_pos hq] at hstep
    rw [hstep]
    simp [updEntry]
  · intro hq
    cases f with
    | zero => simp [handleDelayedStateChange, ackRun]
    | succ g => simp [handleDelayedStateChange, ackRun, hlk, hq]
  · intro hq
    have hl2 : lookupA (updEntry s id clearTimerE).listeners id = some (clearTimerE e) := by
      simp [updEntry, hlk]
    have hq2 : (clearTimerE e).queuedVal = SV.null := hq
    cases f with
    | zero => simp [checkStateForAck, ackRun, hlk, ht]
    | succ g => simp [checkStateForAck, ackRun, hlk, ht, hl2, hq2]

theorem c10_witness :
    lookupA (onStateChange 9 c10s idG (some { val := SV.null, ack := false })).listeners idG
      = some { c10e with queuedVal := SV.null } :=
  (c10_nullSentinel 9 c10s idG c10e 500 (by decide) (by decide) (by decide) rfl rfl).1

/-- C9 (counterexample): two dispatches on the same unregistered id
produce two unsupported-target error reports in the log, not one as the
claim requires; only the dedup set entry is recorded once. -/
theorem c9_counterexample :
    c9s2.log.count (Ev.errorUnsupported idU) = 2 ∧
    c9s2.reportedUnsupported = [idU] := by
  decide

/-- C9 (amended): a dispatch on an unregistered identifier invokes no
listener and logs one unsupported-target error each time it occurs; the
per-identifier dedup set receives the identifier at most once, so the
set-guarded deduplicated report fires exactly once while the plain
error log line repeats on every dispatch. -/
theorem c9_amended (f : Nat) (s : AckState) (id : String) (v : SV)
    (hid : ¬ id = emptyId) (hinfo : strContains id infoMarker = false)
    (hlk : lookupA s.listeners id = none) :
    (onStateChange f s id (some { val := v, ack := false })).log
      = Ev.errorUnsupported id :: s.log ∧
    (onStateChange f s id (some { val := v, ack := false })).listeners = s.listeners ∧
    (onStateChange f s id (some { val := v, ack := false })).currentStateValues
      = s.currentStateValues ∧
    (onStateChange f s id (some { val := v, ack := false })).reportedUnsupported
      = (if id ∈ s.reportedUnsupported then s.reportedUnsupported
         else id :: s.reportedUnsupported) ∧
    (∀ id2 o n, Ev.listenerCalled id2 o n
        ∈ (onStateChange f s id (some { val := v, ack := false })).log →
      Ev.listenerCalled id2 o n ∈ s.log) ∧
    (id ∉ s.reportedUnsupported →
      (onStateChange f (onStateChange f s id (some { val := v, ack := false })) id
          (some { val := v, ack := false })).reportedUnsupported
        = id :: s.reportedUnsupported ∧
      (onStateChange f (onStateChange f s id (some { val := v, ack := false })) id
          (some { val := v, ack := false })).log
        = Ev.errorUnsupported id :: Ev.errorUnsupported id :: s.log) := by
  obtain ⟨hl1, hls1, hcsv1, hr1, hlx1⟩ := onStateChange_unregistered f s id v hid hinfo hlk
  refine ⟨hl1, hls1, hcsv1, hr1, ?_, ?_⟩
  · intro id2 o n hm
    rw [hl1] at hm
    rcases List.mem_cons.mp hm with h | h
    · simp at h
    · exact h
  · intro hnot
    obtain ⟨hl2, hls2, hcsv2, hr2, hlx2⟩ :=
      onStateChange_unregistered f (onStateChange f s id (some { val := v, ack := false }))
        id v hid hinfo (by rw [hls1]; exact hlk)
    constructor
    · rw [hr2, hr1, if_neg hnot]
      simp
    · rw [hl2, hl1]

theorem c9_witness :
    (onStateChange 9 c9s0 idU (some { val := SV.num 1, ack := false })).log
      = [Ev.errorUnsupported idU] :=
  (c9_amended 9 c9s0 idU (SV.num 1) (by decide) (by decide) rfl).1

/-- C8: a flush is a no-op when the live value equals the last persisted
one; when it differs, the flush persists the value (and the detail
breakdown when kept) stamped with the current instant, records it as
last persisted and arms the one-shot 30000-unit timer; the timer
callback clears the stored handle and re-attempts the flush; and in the
concrete run with increments at 0, 10000 and 40000 and timer expiries
at 30000 and 60000, the persisted writes happen exactly at 0 (value 1),
30000 (value 2, covering the 10000 increment) and 60000 (value 3,
covering the 40000 one), one write per window and no increment lost,
while the shutdown flush force-persists the pending value 4. -/
theorem c8_counters :
    (∀ (s : InfoState) (id : String) (e : InfoEntry) (b : Bool),
      lookupA s.info id = some e → e.value = e.lastSet →
      setInfoStateIfChanged s id b = s) ∧
    (∀ (s : InfoState) (id : String) (e : InfoEntry),
      lookupA s.info id = some e → e.value ≠ e.lastSet →
      setInfoStateIfChanged s id false
        = { s with
            info := updA s.info id
              (fun _ => { e with lastSet := e.value, timer := some (s.now + flushWindowMs) }),
            log := (if e.hasDetails then [IEv.persistDetail id e.details s.now] else [])
              ++ IEv.persist id e.value s.now :: s.log }) ∧
    (∀ (s : InfoState) (id : String) (e : InfoEntry) (t : Nat),
      lookupA s.info id = some e → e.timer = some t →
      fireInfoTimer s id
        = setInfoStateIfChanged
            { s with info := updA s.info id (fun e2 => { e2 with timer := none }) } id false) ∧
    c8s7.log = [IEv.persist ctrMsg (some 4) 70000, IEv.persist ctrMsg (some 3) 60000,
      IEv.persist ctrMsg (some 2) 30000, IEv.persist ctrMsg (some 1) 0] ∧
    lookupA c8s7.info ctrMsg
      = some { infoInit with value := some 4, lastSet := some 4, timer := some 90000 } := by
  refine ⟨?_, ?_, ?_, by decide, by decide⟩
  · intro s id e b hlk heq
    simp [setInfoStateIfChanged, hlk, heq]
  · intro s id e hlk hne
    by_cases hd : e.hasDetails <;>
      simp [setInfoStateIfChanged, hlk, hne, hd]
  · intro s id e t hlk ht
    simp [fireInfoTimer, hlk, ht]

theorem c8_witness : setInfoStateIfChanged c8s0 ctrMsg false = c8s0 :=
  (c8_counters).1 c8s0 ctrMsg infoInit false (by decide) rfl

end Lox
